import Mathlib

/-!
Shallow embedding of `src/background/transport/transport-browser-tab.ts`
(class `TransportBrowserTab`) from the keeweb-connect repository.

The event-driven TypeScript code is modelled by explicit state passing:
* the mutable fields `_tab` and `_port` become `TransportState`;
* host-platform effects (permission check, tab query/creation, the active
  tab, the first event delivered on each handshake attempt's port, and the
  random string produced by `randomBase64(32)` at each attempt) are
  supplied by environment records (`ConnectEnv`, `TabEnv`);
* observable actions (error events emitted, `activateTab` calls, ports
  opened/closed, listener cleanup, inter-attempt delays, ping requests
  posted) are returned as explicit records and traces.
-/

namespace KeeWebConnect

/-- Constant `_maxTabConnectionRetries = 10` from the source. -/
def maxTabConnectionRetries : Int := 10

/-- Constant `_tabConnectionRetryMillis = 500` from the source. -/
def tabConnectionRetryMillis : Nat := 500

/-- Constant `_tabConnectionTimeoutMillis = 500` from the source. -/
def tabConnectionTimeoutMillis : Nat := 500

/-- A browser tab, identified by its id (`chrome.tabs.Tab`, only `id` is used). -/
structure Tab where
  id : Nat
deriving DecidableEq, Repr

/-- A `chrome.runtime.Port` obtained from `chrome.tabs.connect(tabId, { name })`.
The attempt index distinguishes ports opened by successive handshake attempts. -/
structure Port where
  tabId : Nat
  attempt : Nat
  name : String
deriving DecidableEq, Repr

/-- The ping request `{ action: 'ping', data: port.name }` posted on a fresh port. -/
structure KeeWebConnectPingRequest where
  action : String
  data : String
deriving DecidableEq, Repr

/-- A ping response message; only its `data` field is inspected by the handshake. -/
structure KeeWebConnectPingResponse where
  data : String
deriving DecidableEq, Repr

/-- An application-level request message forwarded verbatim by `request`. -/
structure KeeWebConnectRequest where
  payload : String
deriving DecidableEq, Repr

/-- The first of the three raced outcomes on one handshake attempt's port:
the 500ms response timeout fires, the port disconnects, or a message arrives. -/
inductive AttemptEvent where
  | timeout
  | disconnect
  | message (msg : KeeWebConnectPingResponse)
deriving DecidableEq, Repr

/-- How one handshake attempt ended. -/
inductive AttemptOutcome where
  | timedOut
  | disconnectedBeforeMessage
  | matched
  | mismatched
deriving DecidableEq, Repr

/-- Observable record of one handshake attempt inside `connectToTab`:
the budget (`retriesLeft`) it started with, the port it opened, the ping it
posted, whether `cleanup()` ran, whether the code itself called
`port.disconnect()`, the outcome, and the delay scheduled before the next
attempt (`none` when the attempt resolves the whole call). -/
structure AttemptRecord where
  budgetAtStart : Int
  port : Port
  pingSent : KeeWebConnectPingRequest
  cleanupDone : Bool
  portClosedByUs : Bool
  outcome : AttemptOutcome
  retryDelay : Option Nat
deriving DecidableEq, Repr

/-- Environment for the handshake attempts: the random base64 string produced
for attempt `i`, and the first event delivered on attempt `i`'s port. -/
structure TabEnv where
  randomB64 : Nat → String
  event : Nat → AttemptEvent

/-- Source `getRandomPortName()`: prefixes the random base64 part. -/
def getRandomPortName (r : String) : String := "keeweb-connect-" ++ r

/-- Source `connectToTab(retriesLeft)`: if the budget is exhausted resolve
`undefined`; otherwise open a port under a fresh random name, post a ping
carrying `port.name`, and race timeout / disconnect / message.  Timeout:
cleanup, close the port, recurse immediately.  Disconnect: cleanup, recurse
after the 500ms retry delay.  Message: cleanup, then resolve the port if
`msg.data` equals the fresh name, else close the port and resolve
`undefined` with no retry.  Returns the resolved port and the list of
attempt records in order. -/
def connectToTab (tabId : Nat) (env : TabEnv) (idx : Nat) (retriesLeft : Int) :
    Option Port × List AttemptRecord :=
  if retriesLeft ≤ 0 then (none, [])
  else
    let name := getRandomPortName (env.randomB64 idx)
    let port : Port := ⟨tabId, idx, name⟩
    let pingRequest : KeeWebConnectPingRequest := ⟨"ping", port.name⟩
    match env.event idx with
    | .timeout =>
      let rest := connectToTab tabId env (idx + 1) (retriesLeft - 1)
      (rest.1,
        { budgetAtStart := retriesLeft, port := port, pingSent := pingRequest,
          cleanupDone := true, portClosedByUs := true,
          outcome := .timedOut, retryDelay := some 0 } :: rest.2)
    | .disconnect =>
      let rest := connectToTab tabId env (idx + 1) (retriesLeft - 1)
      (rest.1,
        { budgetAtStart := retriesLeft, port := port, pingSent := pingRequest,
          cleanupDone := true, portClosedByUs := false,
          outcome := .disconnectedBeforeMessage,
          retryDelay := some tabConnectionRetryMillis } :: rest.2)
    | .message msg =>
      if msg.data = name then
        (some port,
          [{ budgetAtStart := retriesLeft, port := port, pingSent := pingRequest,
             cleanupDone := true, portClosedByUs := false,
             outcome := .matched, retryDelay := none }])
      else
        (none,
          [{ budgetAtStart := retriesLeft, port := port, pingSent := pingRequest,
             cleanupDone := true, portClosedByUs := true,
             outcome := .mismatched, retryDelay := none }])
termination_by retriesLeft.toNat
decreasing_by all_goals omega

/-- The mutable fields `_tab` and `_port` of the class. -/
structure TransportState where
  tab : Option Tab
  port : Option Port
deriving DecidableEq, Repr

/-- The error events the module can emit (by i18n key or literal text). -/
inductive ErrMsg where
  | errorBrowserTabNoPermissions
  | errorBrowserCannotCreateTab
  | errorBrowserCannotConnectToTab
  | errorKeeWebDisconnected
  | portNotConnected
deriving DecidableEq, Repr

/-- Environment for one `connect()` call: the permission-check result, the
active tab recorded at the start, the tab `findOrCreateTab()` resolves
(or `none` when tab creation fails), and the handshake environment. -/
structure ConnectEnv where
  hasPermissions : Bool
  activeTab : Option Tab
  foundTab : Option Tab
  tabEnv : TabEnv

/-- Result of one `connect()` call: the new field state, the error events
emitted, the `activateTab` calls performed, the handshake attempt trace and
whether the post-handshake message/disconnect listeners were registered. -/
structure ConnectResult where
  state : TransportState
  errors : List ErrMsg
  activations : List Tab
  attempts : List AttemptRecord
  listenersRegistered : Bool
deriving DecidableEq, Repr

/-- Source `connect()`: permission check, record the active tab, find or
create the target tab, run `connectToTab` with the retry budget, then
either fail (emitting one error) or store the port and register listeners,
restoring focus to the previously active tab when it differs from the
acquired tab. -/
def connect (env : ConnectEnv) (st : TransportState) : ConnectResult :=
  if env.hasPermissions = false then
    { state := st, errors := [ErrMsg.errorBrowserTabNoPermissions],
      activations := [], attempts := [], listenersRegistered := false }
  else
    match env.foundTab with
    | none =>
      { state := { st with tab := none },
        errors := [ErrMsg.errorBrowserCannotCreateTab],
        activations := [], attempts := [], listenersRegistered := false }
    | some tab =>
      let res := connectToTab tab.id env.tabEnv 0 maxTabConnectionRetries
      let restoreFocus : List Tab :=
        match env.activeTab with
        | some a => if tab.id ≠ a.id then [a] else []
        | none => []
      match res.1 with
      | none =>
        { state := { tab := some tab, port := none },
          errors := [ErrMsg.errorBrowserCannotConnectToTab],
          activations := restoreFocus, attempts := res.2,
          listenersRegistered := false }
      | some p =>
        { state := { tab := some tab, port := some p },
          errors := [], activations := restoreFocus, attempts := res.2,
          listenersRegistered := true }

/-- Result of one `disconnect()` call. -/
structure DisconnectResult where
  state : TransportState
  portDisconnectCalled : Bool
  errors : List ErrMsg
deriving DecidableEq, Repr

/-- Source `disconnect()`: clear `_tab`, call `_port?.disconnect()`, and if a
port was tracked clear it and emit the disconnected error. -/
def disconnect (st : TransportState) : DisconnectResult :=
  match st.port with
  | none =>
    { state := { st with tab := none }, portDisconnectCalled := false, errors := [] }
  | some _ =>
    { state := { tab := none, port := none }, portDisconnectCalled := true,
      errors := [ErrMsg.errorKeeWebDisconnected] }

/-- Result of one `request()` call: the (unchanged) state, the messages
posted to a port, and the error events emitted. -/
structure RequestResult where
  state : TransportState
  posted : List (Port × KeeWebConnectRequest)
  errors : List ErrMsg
deriving DecidableEq, Repr

/-- Source `request(message)`: post the message on the tracked port when one
exists, otherwise emit the not-connected error. -/
def request (st : TransportState) (m : KeeWebConnectRequest) : RequestResult :=
  match st.port with
  | some p => { state := st, posted := [(p, m)], errors := [] }
  | none => { state := st, posted := [], errors := [ErrMsg.portNotConnected] }

/-- Result of the unsolicited port-disconnect handler. -/
structure PortDisconnectedResult where
  state : TransportState
  errors : List ErrMsg
deriving DecidableEq, Repr

/-- Source `portDisconnected()`: if a port is tracked, clear it and emit the
disconnected error; unconditionally clear `_tab`. -/
def portDisconnected (st : TransportState) : PortDisconnectedResult :=
  match st.port with
  | some _ =>
    { state := { tab := none, port := none },
      errors := [ErrMsg.errorKeeWebDisconnected] }
  | none =>
    { state := { tab := none, port := st.port }, errors := [] }

/-- A handshake environment in which every attempt times out. -/
def allTimeoutEnv : TabEnv := ⟨fun _ => "r", fun _ => AttemptEvent.timeout⟩

/-- A handshake environment in which every attempt's port disconnects first. -/
def allDisconnectEnv : TabEnv := ⟨fun _ => "r", fun _ => AttemptEvent.disconnect⟩

theorem connectToTab_nonpos (tabId : Nat) (env : TabEnv) (idx : Nat) {b : Int}
    (hb : b ≤ 0) : connectToTab tabId env idx b = (none, []) := by
  rw [connectToTab]
  simp [hb]

theorem connectToTab_timeout (tabId : Nat) (env : TabEnv) (idx : Nat) {b : Int}
    (hb : 0 < b) (he : env.event idx = AttemptEvent.timeout) :
    connectToTab tabId env idx b =
      ((connectToTab tabId env (idx + 1) (b - 1)).1,
        { budgetAtStart := b,
          port := ⟨tabId, idx, getRandomPortName (env.randomB64 idx)⟩,
          pingSent := ⟨"ping", getRandomPortName (env.randomB64 idx)⟩,
          cleanupDone := true, portClosedByUs := true,
          outcome := AttemptOutcome.timedOut, retryDelay := some 0 } ::
          (connectToTab tabId env (idx + 1) (b - 1)).2) := by
  conv_lhs => rw [connectToTab]
  simp [he, show ¬ b ≤ 0 by omega]

theorem connectToTab_disconnect (tabId : Nat) (env : TabEnv) (idx : Nat) {b : Int}
    (hb : 0 < b) (he : env.event idx = AttemptEvent.disconnect) :
    connectToTab tabId env idx b =
      ((connectToTab tabId env (idx + 1) (b - 1)).1,
        { budgetAtStart := b,
          port := ⟨tabId, idx, getRandomPortName (env.randomB64 idx)⟩,
          pingSent := ⟨"ping", getRandomPortName (env.randomB64 idx)⟩,
          cleanupDone := true, portClosedByUs := false,
          outcome := AttemptOutcome.disconnectedBeforeMessage,
          retryDelay := some tabConnectionRetryMillis } ::
          (connectToTab tabId env (idx + 1) (b - 1)).2) := by
  conv_lhs => rw [connectToTab]
  simp [he, show ¬ b ≤ 0 by omega]

theorem connectToTab_message (tabId : Nat) (env : TabEnv) (idx : Nat) {b : Int}
    (msg : KeeWebConnectPingResponse) (hb : 0 < b)
    (he : env.event idx = AttemptEvent.message msg) :
    connectToTab tabId env idx b =
      if msg.data = getRandomPortName (env.randomB64 idx) then
        (some ⟨tabId, idx, getRandomPortName (env.randomB64 idx)⟩,
          [{ budgetAtStart := b,
             port := ⟨tabId, idx, getRandomPortName (env.randomB64 idx)⟩,
             pingSent := ⟨"ping", getRandomPortName (env.randomB64 idx)⟩,
             cleanupDone := true, portClosedByUs := false,
             outcome := AttemptOutcome.matched, retryDelay := none }])
      else
        (none,
          [{ budgetAtStart := b,
             port := ⟨tabId, idx, getRandomPortName (env.randomB64 idx)⟩,
             pingSent := ⟨"ping", getRandomPortName (env.randomB64 idx)⟩,
             cleanupDone := true, portClosedByUs := true,
             outcome := AttemptOutcome.mismatched, retryDelay := none }]) := by
  conv_lhs => rw [connectToTab]
  simp [he, show ¬ b ≤ 0 by omega]

theorem connectToTab_trace_nil_iff (tabId : Nat) (env : TabEnv) (idx : Nat) (b : Int) :
    (connectToTab tabId env idx b).2 = [] ↔ b ≤ 0 := by
  by_cases hb : b ≤ 0
  · simp [connectToTab_nonpos _ _ _ hb, hb]
  · have hb' : 0 < b := by omega
    rcases he : env.event idx with _ | _ | msg
    · rw [connectToTab_timeout _ _ _ hb' he]
      simp [hb]
    · rw [connectToTab_disconnect _ _ _ hb' he]
      simp [hb]
    · rw [connectToTab_message _ _ _ _ hb' he]
      by_cases hd : msg.data = getRandomPortName (env.randomB64 idx) <;>
        simp [hd, hb]

theorem connectToTab_length_le (tabId : Nat) (env : TabEnv) (idx : Nat) (b : Int) :
    (connectToTab tabId env idx b).2.length ≤ b.toNat := by
  induction idx, b using connectToTab.induct tabId env with
  | case1 idx b hb =>
    simp [connectToTab_nonpos _ _ _ hb]
  | case2 idx b hb he ih =>
    rw [connectToTab_timeout _ _ _ (by omega) he]
    simp only [List.length_cons]
    omega
  | case3 idx b hb he ih =>
    rw [connectToTab_disconnect _ _ _ (by omega) he]
    simp only [List.length_cons]
    omega
  | case4 idx b hb name msg he hd =>
    rw [connectToTab_message _ _ _ _ (by omega) he]
    simp only [if_pos hd, List.length_cons, List.length_nil]
    omega
  | case5 idx b hb name msg he hd =>
    rw [connectToTab_message _ _ _ _ (by omega) he]
    simp only [if_neg hd, List.length_cons, List.length_nil]
    omega

theorem connectToTab_head_isSome (tabId : Nat) (env : TabEnv) (idx : Nat) (b : Int) :
    (((connectToTab tabId env idx b).2)[0]?).isSome = true ↔ 0 < b := by
  by_cases hb : b ≤ 0
  · rw [connectToTab_nonpos _ _ _ hb]
    simp
    omega
  · have hne : (connectToTab tabId env idx b).2 ≠ [] := by
      rw [Ne, connectToTab_trace_nil_iff]
      exact hb
    rcases h : (connectToTab tabId env idx b).2 with _ | ⟨a, l⟩
    · exact absurd h hne
    · simp
      omega

theorem connectToTab_trace_get (tabId : Nat) (env : TabEnv) (idx : Nat) (b : Int) :
    ∀ (i : Nat) (r : AttemptRecord),
      ((connectToTab tabId env idx b).2)[i]? = some r →
      r.budgetAtStart = b - i ∧
      r.port = ⟨tabId, idx + i, getRandomPortName (env.randomB64 (idx + i))⟩ ∧
      r.pingSent = ⟨"ping", getRandomPortName (env.randomB64 (idx + i))⟩ ∧
      r.cleanupDone = true ∧
      (r.outcome = AttemptOutcome.timedOut →
        r.portClosedByUs = true ∧ r.retryDelay = some 0) ∧
      (r.outcome = AttemptOutcome.disconnectedBeforeMessage →
        r.portClosedByUs = false ∧ r.retryDelay = some tabConnectionRetryMillis) ∧
      (r.outcome = AttemptOutcome.matched →
        r.portClosedByUs = false ∧ r.retryDelay = none) ∧
      (r.outcome = AttemptOutcome.mismatched →
        r.portClosedByUs = true ∧ r.retryDelay = none) := by
  induction idx, b using connectToTab.induct tabId env with
  | case1 idx b hb =>
    intro i r h
    rw [connectToTab_nonpos _ _ _ hb] at h
    simp at h
  | case2 idx b hb he ih =>
    intro i r h
    rw [connectToTab_timeout _ _ _ (by omega) he] at h
    cases i with
    | zero =>
      simp only [List.getElem?_cons_zero, Option.some_inj] at h
      subst h
      refine ⟨by simp, rfl, rfl, rfl, ?_, ?_, ?_, ?_⟩ <;> intro hc <;>
        first
        | exact ⟨rfl, rfl⟩
        | simp at hc
    | succ i =>
      simp only [List.getElem?_cons_succ] at h
      obtain ⟨h1, h2, h3, h4, h5, h6, h7, h8⟩ := ih i r h
      have e : idx + 1 + i = idx + (i + 1) := by omega
      rw [e] at h2 h3
      exact ⟨by omega, h2, h3, h4, h5, h6, h7, h8⟩
  | case3 idx b hb he ih =>
    intro i r h
    rw [connectToTab_disconnect _ _ _ (by omega) he] at h
    cases i with
    | zero =>
      simp only [List.getElem?_cons_zero, Option.some_inj] at h
      subst h
      refine ⟨by simp, rfl, rfl, rfl, ?_, ?_, ?_, ?_⟩ <;> intro hc <;>
        first
        | exact ⟨rfl, rfl⟩
        | simp at hc
    | succ i =>
      simp only [List.getElem?_cons_succ] at h
      obtain ⟨h1, h2, h3, h4, h5, h6, h7, h8⟩ := ih i r h
      have e : idx + 1 + i = idx + (i + 1) := by omega
      rw [e] at h2 h3
      exact ⟨by omega, h2, h3, h4, h5, h6, h7, h8⟩
  | case4 idx b hb name msg he hd =>
    intro i r h
    rw [connectToTab_message _ _ _ _ (by omega) he] at h
    by_cases hcond : msg.data = getRandomPortName (env.randomB64 idx)
    · rw [if_pos hcond] at h
      cases i with
      | zero =>
        simp only [List.getElem?_cons_zero, Option.some_inj] at h
        subst h
        refine ⟨by simp, rfl, rfl, rfl, ?_, ?_, ?_, ?_⟩ <;> intro hc <;>
        first
        | exact ⟨rfl, rfl⟩
        | simp at hc
      | succ i =>
        simp only [List.getElem?_cons_succ] at h
        simp at h
    · rw [if_neg hcond] at h
      cases i with
      | zero =>
        simp only [List.getElem?_cons_zero, Option.some_inj] at h
        subst h
        refine ⟨by simp, rfl, rfl, rfl, ?_, ?_, ?_, ?_⟩ <;> intro hc <;>
        first
        | exact ⟨rfl, rfl⟩
        | simp at hc
      | succ i =>
        simp only [List.getElem?_cons_succ] at h
        simp at h
  | case5 idx b hb name msg he hd =>
    intro i r h
    rw [connectToTab_message _ _ _ _ (by omega) he] at h
    by_cases hcond : msg.data = getRandomPortName (env.randomB64 idx)
    · rw [if_pos hcond] at h
      cases i with
      | zero =>
        simp only [List.getElem?_cons_zero, Option.some_inj] at h
        subst h
        refine ⟨by simp, rfl, rfl, rfl, ?_, ?_, ?_, ?_⟩ <;> intro hc <;>
        first
        | exact ⟨rfl, rfl⟩
        | simp at hc
      | succ i =>
        simp only [List.getElem?_cons_succ] at h
        simp at h
    · rw [if_neg hcond] at h
      cases i with
      | zero =>
        simp only [List.getElem?_cons_zero, Option.some_inj] at h
        subst h
        refine ⟨by simp, rfl, rfl, rfl, ?_, ?_, ?_, ?_⟩ <;> intro hc <;>
        first
        | exact ⟨rfl, rfl⟩
        | simp at hc
      | succ i =>
        simp only [List.getElem?_cons_succ] at h
        simp at h

theorem connectToTab_trace_next (tabId : Nat) (env : TabEnv) (idx : Nat) (b : Int) :
    ∀ (i : Nat) (r : AttemptRecord),
      ((connectToTab tabId env idx b).2)[i]? = some r →
      ((((connectToTab tabId env idx b).2)[i + 1]?).isSome = true ↔
        ((r.outcome = AttemptOutcome.timedOut ∨
          r.outcome = AttemptOutcome.disconnectedBeforeMessage) ∧
          1 < r.budgetAtStart)) := by
  induction idx, b using connectToTab.induct tabId env with
  | case1 idx b hb =>
    intro i r h
    rw [connectToTab_nonpos _ _ _ hb] at h
    simp at h
  | case2 idx b hb he ih =>
    intro i r h
    rw [connectToTab_timeout _ _ _ (by omega) he] at h ⊢
    cases i with
    | zero =>
      simp only [List.getElem?_cons_zero, Option.some_inj] at h
      subst h
      simp only [List.getElem?_cons_succ]
      rw [connectToTab_head_isSome]
      constructor
      · intro hlt
        refine ⟨by simp, ?_⟩
        show 1 < b
        omega
      · rintro ⟨-, hlt⟩
        have hb1 : 1 < b := hlt
        omega
    | succ i =>
      simp only [List.getElem?_cons_succ] at h ⊢
      exact ih i r h
  | case3 idx b hb he ih =>
    intro i r h
    rw [connectToTab_disconnect _ _ _ (by omega) he] at h ⊢
    cases i with
    | zero =>
      simp only [List.getElem?_cons_zero, Option.some_inj] at h
      subst h
      simp only [List.getElem?_cons_succ]
      rw [connectToTab_head_isSome]
      constructor
      · intro hlt
        refine ⟨by simp, ?_⟩
        show 1 < b
        omega
      · rintro ⟨-, hlt⟩
        have hb1 : 1 < b := hlt
        omega
    | succ i =>
      simp only [List.getElem?_cons_succ] at h ⊢
      exact ih i r h
  | case4 idx b hb name msg he hd =>
    intro i r h
    rw [connectToTab_message _ _ _ _ (by omega) he] at h ⊢
    by_cases hcond : msg.data = getRandomPortName (env.randomB64 idx)
    · rw [if_pos hcond] at h ⊢
      cases i with
      | zero =>
        simp only [List.getElem?_cons_zero, Option.some_inj] at h
        subst h
        simp
      | succ i =>
        simp only [List.getElem?_cons_succ] at h
        simp at h
    · rw [if_neg hcond] at h ⊢
      cases i with
      | zero =>
        simp only [List.getElem?_cons_zero, Option.some_inj] at h
        subst h
        simp
      | succ i =>
        simp only [List.getElem?_cons_succ] at h
        simp at h
  | case5 idx b hb name msg he hd =>
    intro i r h
    rw [connectToTab_message _ _ _ _ (by omega) he] at h ⊢
    by_cases hcond : msg.data = getRandomPortName (env.randomB64 idx)
    · rw [if_pos hcond] at h ⊢
      cases i with
      | zero =>
        simp only [List.getElem?_cons_zero, Option.some_inj] at h
        subst h
        simp
      | succ i =>
        simp only [List.getElem?_cons_succ] at h
        simp at h
    · rw [if_neg hcond] at h ⊢
      cases i with
      | zero =>
        simp only [List.getElem?_cons_zero, Option.some_inj] at h
        subst h
        simp
      | succ i =>
        simp only [List.getElem?_cons_succ] at h
        simp at h

theorem allTimeout_result_none (tabId : Nat) (idx : Nat) (b : Int) :
    (connectToTab tabId allTimeoutEnv idx b).1 = none := by
  induction idx, b using connectToTab.induct tabId allTimeoutEnv with
  | case1 idx b hb =>
    simp [connectToTab_nonpos _ _ _ hb]
  | case2 idx b hb he ih =>
    rw [connectToTab_timeout _ _ _ (by omega) he]
    exact ih
  | case3 idx b hb he ih =>
    exact absurd he (by simp [allTimeoutEnv])
  | case4 idx b hb name msg he hd =>
    exact absurd he (by simp [allTimeoutEnv])
  | case5 idx b hb name msg he hd =>
    exact absurd he (by simp [allTimeoutEnv])

/-- A handshake environment whose every attempt receives a pong carrying the
correct fresh name of attempt 0. -/
def goodPongEnv : TabEnv :=
  ⟨fun _ => "r", fun _ => AttemptEvent.message ⟨"keeweb-connect-r"⟩⟩

/-- A handshake environment whose every attempt receives a pong carrying a
stale token that matches no attempt's fresh name. -/
def stalePongEnv : TabEnv :=
  ⟨fun _ => "r", fun _ => AttemptEvent.message ⟨"keeweb-connect-stale"⟩⟩

/-- C1: For a handshake attempt with budget left whose port receives a message
before timeout or disconnect, the handshake succeeds and returns that
attempt's port if and only if the message's `data` equals the fresh random
name generated for the attempt (the name the port was opened under and sent
as the ping's data); otherwise the port is closed and the handshake returns
failure immediately, with no further retry regardless of remaining budget. -/
theorem handshake_token_decides_success (tabId : Nat) (env : TabEnv) (idx : Nat)
    (b : Int) (msg : KeeWebConnectPingResponse) (hb : 0 < b)
    (he : env.event idx = AttemptEvent.message msg) :
    ((connectToTab tabId env idx b).1 =
        some ⟨tabId, idx, getRandomPortName (env.randomB64 idx)⟩ ↔
      msg.data = getRandomPortName (env.randomB64 idx)) ∧
    (msg.data = getRandomPortName (env.randomB64 idx) →
      connectToTab tabId env idx b =
        (some ⟨tabId, idx, getRandomPortName (env.randomB64 idx)⟩,
          [{ budgetAtStart := b,
             port := ⟨tabId, idx, getRandomPortName (env.randomB64 idx)⟩,
             pingSent := ⟨"ping", getRandomPortName (env.randomB64 idx)⟩,
             cleanupDone := true, portClosedByUs := false,
             outcome := AttemptOutcome.matched, retryDelay := none }])) ∧
    (¬ msg.data = getRandomPortName (env.randomB64 idx) →
      connectToTab tabId env idx b =
        (none,
          [{ budgetAtStart := b,
             port := ⟨tabId, idx, getRandomPortName (env.randomB64 idx)⟩,
             pingSent := ⟨"ping", getRandomPortName (env.randomB64 idx)⟩,
             cleanupDone := true, portClosedByUs := true,
             outcome := AttemptOutcome.mismatched, retryDelay := none }])) := by
  rw [connectToTab_message _ _ _ _ hb he]
  by_cases hd : msg.data = getRandomPortName (env.randomB64 idx)
  · rw [if_pos hd]
    exact ⟨⟨fun _ => hd, fun _ => rfl⟩, fun _ => rfl, fun hn => absurd hd hn⟩
  · rw [if_neg hd]
    refine ⟨⟨fun hcontra => ?_, fun hdd => absurd hdd hd⟩,
      fun hdd => absurd hdd hd, fun _ => rfl⟩
    simp at hcontra

/-- Witness for C1: a pong echoing attempt 0's fresh name is accepted. -/
theorem handshake_token_decides_success_witness :
    (connectToTab 7 goodPongEnv 0 10).1 = some ⟨7, 0, "keeweb-connect-r"⟩ :=
  ((handshake_token_decides_success 7 goodPongEnv 0 10 ⟨"keeweb-connect-r"⟩
      (by decide) rfl).1).mpr (by decide)

/-- C2: The retry counter starts from the constant 10; whenever one attempt in
the trace is followed by another, the earlier attempt failed by timeout or by
port disconnect and the later attempt starts with the budget decremented by
exactly one; a call whose budget is exhausted (0) terminally fails with no
attempt. -/
theorem retryBudget_decremented (tabId : Nat) (env : TabEnv) (idx i : Nat)
    (b : Int) (r r' : AttemptRecord)
    (h : ((connectToTab tabId env idx b).2)[i]? = some r)
    (h' : ((connectToTab tabId env idx b).2)[i + 1]? = some r') :
    maxTabConnectionRetries = 10 ∧
    (r.outcome = AttemptOutcome.timedOut ∨
      r.outcome = AttemptOutcome.disconnectedBeforeMessage) ∧
    r'.budgetAtStart = r.budgetAtStart - 1 ∧
    connectToTab tabId env idx 0 = (none, []) := by
  have hg := connectToTab_trace_get tabId env idx b i r h
  have hg' := connectToTab_trace_get tabId env idx b (i + 1) r' h'
  have hnext := connectToTab_trace_next tabId env idx b i r h
  have hs : (((connectToTab tabId env idx b).2)[i + 1]?).isSome = true := by
    rw [h']
    rfl
  refine ⟨rfl, (hnext.mp hs).1, ?_, connectToTab_nonpos _ _ _ (by omega)⟩
  rw [hg.1, hg'.1]
  omega

/-- Witness for C2: in an all-timeout run with budget 2, attempt 0 (budget 2)
is followed by attempt 1 (budget 1). -/
theorem retryBudget_decremented_witness :
    maxTabConnectionRetries = 10 ∧
    (AttemptOutcome.timedOut = AttemptOutcome.timedOut ∨
      AttemptOutcome.timedOut = AttemptOutcome.disconnectedBeforeMessage) ∧
    (1 : Int) = 2 - 1 ∧
    connectToTab 1 allTimeoutEnv 0 0 = (none, []) := by
  have h := retryBudget_decremented 1 allTimeoutEnv 0 0 2
    { budgetAtStart := 2, port := ⟨1, 0, "keeweb-connect-r"⟩,
      pingSent := ⟨"ping", "keeweb-connect-r"⟩, cleanupDone := true,
      portClosedByUs := true, outcome := AttemptOutcome.timedOut,
      retryDelay := some 0 }
    { budgetAtStart := 1, port := ⟨1, 1, "keeweb-connect-r"⟩,
      pingSent := ⟨"ping", "keeweb-connect-r"⟩, cleanupDone := true,
      portClosedByUs := true, outcome := AttemptOutcome.timedOut,
      retryDelay := some 0 }
    (by simp [connectToTab, allTimeoutEnv, getRandomPortName])
    (by simp [connectToTab, allTimeoutEnv, getRandomPortName])
  exact h

/-- C3: The handshake-with-retry procedure terminates: a call with budget ≤ 0
returns failure with no port opened (empty attempt trace), successive
attempts run with strictly smaller budgets, a connect() call (budget 10)
opens at most 10 ports, and with budget 1 and an immediately failing attempt
exactly one attempt is made. -/
theorem handshake_retry_terminates (tabId : Nat) (env : TabEnv) (idx : Nat)
    (b : Int) (hb : b ≤ 0) :
    connectToTab tabId env idx b = (none, []) ∧
    (∀ (j i : Nat) (b' : Int) (r r' : AttemptRecord),
      ((connectToTab tabId env j b').2)[i]? = some r →
      ((connectToTab tabId env j b').2)[i + 1]? = some r' →
      r'.budgetAtStart < r.budgetAtStart) ∧
    (∀ (cenv : ConnectEnv) (st : TransportState),
      (connect cenv st).attempts.length ≤ 10) ∧
    (connectToTab 1 allTimeoutEnv 0 1).2.length = 1 := by
  refine ⟨connectToTab_nonpos _ _ _ hb, ?_, ?_, ?_⟩
  · intro j i b' r r' h h'
    have hg := connectToTab_trace_get tabId env j b' i r h
    have hg' := connectToTab_trace_get tabId env j b' (i + 1) r' h'
    rw [hg.1, hg'.1]
    omega
  · intro cenv st
    by_cases hp : cenv.hasPermissions = false
    · simp [connect, hp]
    · rcases hf : cenv.foundTab with _ | t
      · simp [connect, hp, hf]
      · have hlen := connectToTab_length_le t.id cenv.tabEnv 0 maxTabConnectionRetries
        have h10 : maxTabConnectionRetries.toNat = 10 := rfl
        rcases hres : (connectToTab t.id cenv.tabEnv 0 maxTabConnectionRetries).1 with _ | p
        · simp [connect, hp, hf, hres]
          omega
        · simp [connect, hp, hf, hres]
          omega
  · rw [@connectToTab_timeout 1 allTimeoutEnv 0 1 (by decide) rfl]
    rw [connectToTab_nonpos 1 allTimeoutEnv 1 (by decide)]
    rfl

/-- Witness for C3: negative budget returns failure with no attempt, and
budget 1 with an immediately timing-out attempt yields exactly one attempt. -/
theorem handshake_retry_terminates_witness :
    connectToTab 1 allTimeoutEnv 0 (-3) = (none, []) ∧
    (connectToTab 1 allTimeoutEnv 0 1).2.length = 1 := by
  have h := handshake_retry_terminates 1 allTimeoutEnv 0 (-3) (by decide)
  exact ⟨h.1, h.2.2.2⟩

/-- C4: A failed attempt that timed out ran cleanup, closed its port, and its
retry (started whenever budget remains) is scheduled with no delay; a failed
attempt whose port disconnected first ran cleanup, did not itself close the
port, and its retry (started whenever budget remains) waits the fixed 500ms
backoff. -/
theorem failed_attempt_retry_timing (tabId : Nat) (env : TabEnv) (idx i : Nat)
    (b : Int) (r : AttemptRecord)
    (h : ((connectToTab tabId env idx b).2)[i]? = some r) :
    (r.outcome = AttemptOutcome.timedOut →
      r.cleanupDone = true ∧ r.portClosedByUs = true ∧ r.retryDelay = some 0 ∧
      (1 < r.budgetAtStart →
        (((connectToTab tabId env idx b).2)[i + 1]?).isSome = true)) ∧
    (r.outcome = AttemptOutcome.disconnectedBeforeMessage →
      r.cleanupDone = true ∧ r.portClosedByUs = false ∧
      r.retryDelay = some tabConnectionRetryMillis ∧
      tabConnectionRetryMillis = 500 ∧
      (1 < r.budgetAtStart →
        (((connectToTab tabId env idx b).2)[i + 1]?).isSome = true)) := by
  have hg := connectToTab_trace_get tabId env idx b i r h
  have hnext := connectToTab_trace_next tabId env idx b i r h
  refine ⟨fun ho => ⟨hg.2.2.2.1, (hg.2.2.2.2.1 ho).1, (hg.2.2.2.2.1 ho).2,
      fun hbud => hnext.mpr ⟨Or.inl ho, hbud⟩⟩,
    fun ho => ⟨hg.2.2.2.1, (hg.2.2.2.2.2.1 ho).1, (hg.2.2.2.2.2.1 ho).2, rfl,
      fun hbud => hnext.mpr ⟨Or.inr ho, hbud⟩⟩⟩

/-- Witness for C4: in an all-disconnect run with budget 2, attempt 0 is
followed by a retry (after the 500ms backoff recorded in its record). -/
theorem failed_attempt_retry_timing_witness :
    (((connectToTab 1 allDisconnectEnv 0 2).2)[0 + 1]?).isSome = true := by
  have h := failed_attempt_retry_timing 1 allDisconnectEnv 0 0 2
    { budgetAtStart := 2, port := ⟨1, 0, "keeweb-connect-r"⟩,
      pingSent := ⟨"ping", "keeweb-connect-r"⟩, cleanupDone := true,
      portClosedByUs := false,
      outcome := AttemptOutcome.disconnectedBeforeMessage,
      retryDelay := some 500 }
    (by simp [connectToTab, allDisconnectEnv, getRandomPortName,
      tabConnectionRetryMillis])
  exact (h.2 rfl).2.2.2.2 (by decide)

/-- C5: connect() resolves normally (it is a total function into normal
results) and on every failure path — permission denied, tab creation failed,
handshake exhausted — it ends without a port, reporting the failure solely by
emitting the corresponding single error event. -/
theorem connect_resolves_on_failure (env : ConnectEnv) (st : TransportState)
    (hport : st.port = none) :
    (env.hasPermissions = false →
      (connect env st).state.port = none ∧
      (connect env st).errors = [ErrMsg.errorBrowserTabNoPermissions]) ∧
    (env.hasPermissions = true → env.foundTab = none →
      (connect env st).state.port = none ∧
      (connect env st).errors = [ErrMsg.errorBrowserCannotCreateTab]) ∧
    (∀ t : Tab, env.hasPermissions = true → env.foundTab = some t →
      (connectToTab t.id env.tabEnv 0 maxTabConnectionRetries).1 = none →
      (connect env st).state.port = none ∧
      (connect env st).errors = [ErrMsg.errorBrowserCannotConnectToTab]) := by
  refine ⟨fun hp => ?_, fun hp hf => ?_, fun t hp hf hres => ?_⟩
  · simp [connect, hp, hport]
  · simp [connect, hp, hf, hport]
  · simp [connect, hp, hf, hres]

/-- Witness for C5: permission denied resolves without a port and with exactly
the permissions error emitted. -/
theorem connect_resolves_on_failure_witness :
    (connect ⟨false, none, none, allTimeoutEnv⟩ ⟨none, none⟩).state.port = none ∧
    (connect ⟨false, none, none, allTimeoutEnv⟩ ⟨none, none⟩).errors =
      [ErrMsg.errorBrowserTabNoPermissions] :=
  (connect_resolves_on_failure ⟨false, none, none, allTimeoutEnv⟩ ⟨none, none⟩
    rfl).1 rfl

/-- C6 counterexample: on the terminal-handshake-failure path the tracked tab
is NOT cleared. With permissions granted, tab 5 acquired and every handshake
attempt timing out, connect() emits the cannot-connect error (a terminal
handshake failure) yet the tab handle is still set to tab 5. -/
theorem teardown_together_counterexample :
    (connect ⟨true, none, some ⟨5⟩, allTimeoutEnv⟩ ⟨none, none⟩).errors =
      [ErrMsg.errorBrowserCannotConnectToTab] ∧
    (connect ⟨true, none, some ⟨5⟩, allTimeoutEnv⟩ ⟨none, none⟩).state.tab =
      some ⟨5⟩ := by
  constructor <;> simp [connect, allTimeout_result_none, maxTabConnectionRetries]

/-- C6 (amended): disconnect() clears tab and port together; a terminal
handshake failure of connect() clears the port but leaves the tab handle set
to the acquired tab. -/
theorem teardown_amended (st : TransportState) (env : ConnectEnv) (t : Tab)
    (hp : env.hasPermissions = true) (ht : env.foundTab = some t)
    (hfail : (connectToTab t.id env.tabEnv 0 maxTabConnectionRetries).1 = none) :
    (disconnect st).state.tab = none ∧
    (disconnect st).state.port = none ∧
    (connect env st).state.port = none ∧
    (connect env st).state.tab = some t := by
  refine ⟨?_, ?_, ?_, ?_⟩
  · rcases st with ⟨tab, port⟩
    rcases port with _ | p <;> rfl
  · rcases st with ⟨tab, port⟩
    rcases port with _ | p <;> rfl
  · simp [connect, hp, ht, hfail]
  · simp [connect, hp, ht, hfail]

/-- Witness for C6 (amended): concrete disconnect teardown and terminal
handshake failure keeping the acquired tab. -/
theorem teardown_amended_witness :
    (disconnect ⟨some ⟨5⟩, none⟩).state.tab = none ∧
    (disconnect ⟨some ⟨5⟩, none⟩).state.port = none ∧
    (connect ⟨true, none, some ⟨5⟩, allTimeoutEnv⟩ ⟨some ⟨5⟩, none⟩).state.port =
      none ∧
    (connect ⟨true, none, some ⟨5⟩, allTimeoutEnv⟩ ⟨some ⟨5⟩, none⟩).state.tab =
      some ⟨5⟩ :=
  teardown_amended ⟨some ⟨5⟩, none⟩ ⟨true, none, some ⟨5⟩, allTimeoutEnv⟩ ⟨5⟩
    rfl rfl (allTimeout_result_none 5 0 maxTabConnectionRetries)

/-- C7: disconnect() with no active port clears the tab handle, calls no port
teardown and emits no error; with an active port it closes the port, clears
both fields and emits exactly one error; a second disconnect() in a row emits
no error. -/
theorem disconnect_noop_and_idempotent (st : TransportState) :
    (st.port = none →
      disconnect st =
        { state := { tab := none, port := none }, portDisconnectCalled := false,
          errors := [] }) ∧
    (∀ p : Port, st.port = some p →
      disconnect st =
        { state := { tab := none, port := none }, portDisconnectCalled := true,
          errors := [ErrMsg.errorKeeWebDisconnected] }) ∧
    (disconnect (disconnect st).state).errors = [] := by
  refine ⟨fun hp => ?_, fun p hp => ?_, ?_⟩
  · simp [disconnect, hp]
  · simp [disconnect, hp]
  · rcases hp : st.port with _ | p <;> simp [disconnect, hp]

/-- Witness for C7: disconnect with an active port, then a second disconnect. -/
theorem disconnect_noop_and_idempotent_witness :
    disconnect ⟨some ⟨3⟩, some ⟨3, 0, "n"⟩⟩ =
      { state := { tab := none, port := none }, portDisconnectCalled := true,
        errors := [ErrMsg.errorKeeWebDisconnected] } ∧
    (disconnect (disconnect ⟨some ⟨3⟩, some ⟨3, 0, "n"⟩⟩).state).errors = [] := by
  have h := disconnect_noop_and_idempotent ⟨some ⟨3⟩, some ⟨3, 0, "n"⟩⟩
  exact ⟨h.2.1 ⟨3, 0, "n"⟩ rfl, h.2.2⟩

/-- C8: request() with a live port forwards the message verbatim over that
port and emits nothing; with no port it leaves the state untouched, posts to
no port object, and emits the single not-connected error. -/
theorem request_forwards_or_not_connected (st : TransportState)
    (m : KeeWebConnectRequest) :
    (∀ p : Port, st.port = some p →
      request st m = { state := st, posted := [(p, m)], errors := [] }) ∧
    (st.port = none →
      request st m =
        { state := st, posted := [], errors := [ErrMsg.portNotConnected] }) := by
  refine ⟨fun p hp => ?_, fun hp => ?_⟩ <;> simp [request, hp]

/-- Witness for C8: request with no port posts nothing and emits the
not-connected error. -/
theorem request_forwards_or_not_connected_witness :
    request ⟨none, none⟩ ⟨"hello"⟩ =
      { state := ⟨none, none⟩, posted := [],
        errors := [ErrMsg.portNotConnected] } :=
  (request_forwards_or_not_connected ⟨none, none⟩ ⟨"hello"⟩).2 rfl

/-- C9: when the tab active at the start of connect() exists and its id
differs from the acquired tab's id, activateTab is invoked exactly once with
the original tab (on the success path and on the exhaustion path alike); when
the ids agree it is never invoked. -/
theorem focus_restoration (env : ConnectEnv) (st : TransportState) (a t : Tab)
    (hp : env.hasPermissions = true) (ha : env.activeTab = some a)
    (ht : env.foundTab = some t) :
    (t.id ≠ a.id → (connect env st).activations = [a]) ∧
    (t.id = a.id → (connect env st).activations = []) := by
  constructor
  · intro hid
    rcases hres : (connectToTab t.id env.tabEnv 0 maxTabConnectionRetries).1
      with _ | p <;>
      simp [connect, hp, ha, ht, hres, hid]
  · intro hid
    rcases hres : (connectToTab t.id env.tabEnv 0 maxTabConnectionRetries).1
      with _ | p <;>
      rw [hid] at hres <;>
      simp [connect, hp, ha, ht, hres, hid]

/-- Witness for C9: active tab 2 differs from acquired tab 5, so it is
reactivated exactly once. -/
theorem focus_restoration_witness :
    (connect ⟨true, some ⟨2⟩, some ⟨5⟩, allTimeoutEnv⟩ ⟨none, none⟩).activations =
      [⟨2⟩] :=
  (focus_restoration ⟨true, some ⟨2⟩, some ⟨5⟩, allTimeoutEnv⟩ ⟨none, none⟩
    ⟨2⟩ ⟨5⟩ rfl rfl rfl).1 (by decide)

/-- C10: the unsolicited port-disconnect handler unconditionally clears the
tab handle, emits the disconnected error exactly when a port was still
tracked, and a repeated delivery right after emits nothing. -/
theorem portDisconnected_reentry_safe (st : TransportState) :
    (portDisconnected st).state.tab = none ∧
    (portDisconnected st).errors =
      (if st.port.isSome then [ErrMsg.errorKeeWebDisconnected] else []) ∧
    (portDisconnected (portDisconnected st).state).errors = [] := by
  rcases hp : st.port with _ | p <;> simp [portDisconnected, hp]

end KeeWebConnect
